import Mathlib

/-!
Verification development for the PURPURA climate-risk platform.

The frontend TypeScript utilities (colors.ts, types.ts, risk.ts,
constants.ts) are embedded directly from the source. The backend risk
engine (risk calculator, H3 grid service, scenario comparator) is not
present in the available sources — only its documentation and callers
are — so those components are modelled from the specification, with
each such definition marked in its doc comment.
-/

namespace Purpura

/-- A JavaScript number as seen by the risk classifiers: either NaN or a
finite value (modelled as a rational). Comparisons with NaN are false,
as in JavaScript. -/
inductive JsNum where
  | nan : JsNum
  | fin (q : ℚ) : JsNum
deriving DecidableEq

/-- JavaScript strict less-than on numbers: any comparison involving
NaN yields false. -/
def jsLt : JsNum → JsNum → Bool
  | JsNum.fin a, JsNum.fin b => decide (a < b)
  | _, _ => false

namespace ColorsTs

/-- Embeds getRiskColor from frontend/src/lib/utils/colors.ts. -/
def getRiskColor (score : JsNum) : String :=
  if jsLt score (JsNum.fin (3/10)) then "#10b981"
  else if jsLt score (JsNum.fin (1/2)) then "#f59e0b"
  else if jsLt score (JsNum.fin (7/10)) then "#f97316"
  else "#ef4444"

/-- Embeds getRiskLevel from frontend/src/lib/utils/colors.ts. -/
def getRiskLevel (score : JsNum) : String :=
  if jsLt score (JsNum.fin (3/10)) then "Baixo"
  else if jsLt score (JsNum.fin (1/2)) then "Moderado"
  else if jsLt score (JsNum.fin (7/10)) then "Alto"
  else "Crítico"

/-- Embeds getRiskBadgeClass from frontend/src/lib/utils/colors.ts. -/
def getRiskBadgeClass (score : JsNum) : String :=
  if jsLt score (JsNum.fin (3/10)) then "risk-low"
  else if jsLt score (JsNum.fin (1/2)) then "risk-moderate"
  else if jsLt score (JsNum.fin (7/10)) then "risk-high"
  else "risk-critical"

/-- Embeds getRiskColorRGB from frontend/src/lib/utils/colors.ts. -/
def getRiskColorRGB (score : JsNum) : ℤ × ℤ × ℤ :=
  if jsLt score (JsNum.fin (3/10)) then (16, 185, 129)
  else if jsLt score (JsNum.fin (1/2)) then (245, 158, 11)
  else if jsLt score (JsNum.fin (7/10)) then (249, 115, 22)
  else (239, 68, 68)

/-- JavaScript Math.round: round half toward positive infinity. -/
def jsRound (x : ℚ) : ℤ := Int.floor (x + 1/2)

/-- Embeds interpolateColor from frontend/src/lib/utils/colors.ts:
componentwise rounded linear interpolation between two RGB triples. -/
def interpolateColor (color1 color2 : ℤ × ℤ × ℤ) (factor : ℚ) : ℤ × ℤ × ℤ :=
  (jsRound ((color1.1 : ℚ) + ((color2.1 : ℚ) - (color1.1 : ℚ)) * factor),
   jsRound ((color1.2.1 : ℚ) + ((color2.2.1 : ℚ) - (color1.2.1 : ℚ)) * factor),
   jsRound ((color1.2.2 : ℚ) + ((color2.2.2 : ℚ) - (color1.2.2 : ℚ)) * factor))

end ColorsTs

namespace TypesTs

/-- Embeds getRiskLevel from frontend/src/types.ts (src/unnamed/part_004):
boundaries 0.25 / 0.50 / 0.75 with top band "extreme". -/
def getRiskLevel (score : ℚ) : String :=
  if score < 1/4 then "low"
  else if score < 1/2 then "moderate"
  else if score < 3/4 then "high"
  else "extreme"

/-- Embeds getRiskColor from frontend/src/types.ts: dispatches on the
level returned by getRiskLevel. -/
def getRiskColor (score : ℚ) : String :=
  let level := getRiskLevel score
  if level = "low" then "text-risk-low"
  else if level = "moderate" then "text-risk-moderate"
  else if level = "high" then "text-risk-high"
  else "text-risk-extreme"

end TypesTs

/-- The four risk bands of the stable contract (thresholds 0.3/0.5/0.7). -/
inductive RiskBand where
  | low : RiskBand
  | moderate : RiskBand
  | high : RiskBand
  | critical : RiskBand
deriving DecidableEq, Repr

/-- Modelled from the spec: the risk-band rule of the recommendation
engine in backend/risk/calculator.py (absent from the sources): risk_band
is low below 0.3, moderate below 0.5, high below 0.7, critical at or
above 0.7, thresholds shared with the UI boundary. -/
def riskBand (s : ℚ) : RiskBand :=
  if s < 3/10 then RiskBand.low
  else if s < 1/2 then RiskBand.moderate
  else if s < 7/10 then RiskBand.high
  else RiskBand.critical

/-- Portuguese label associated with each band in colors.ts. -/
def bandLabelPt : RiskBand → String
  | RiskBand.low => "Baixo"
  | RiskBand.moderate => "Moderado"
  | RiskBand.high => "Alto"
  | RiskBand.critical => "Crítico"

/-- Hex color associated with each band in colors.ts. -/
def bandColorHex : RiskBand → String
  | RiskBand.low => "#10b981"
  | RiskBand.moderate => "#f59e0b"
  | RiskBand.high => "#f97316"
  | RiskBand.critical => "#ef4444"

/-- CSS badge class associated with each band in colors.ts. -/
def bandBadgeClass : RiskBand → String
  | RiskBand.low => "risk-low"
  | RiskBand.moderate => "risk-moderate"
  | RiskBand.high => "risk-high"
  | RiskBand.critical => "risk-critical"

/-- RGB triple associated with each band in colors.ts. -/
def bandRGB : RiskBand → ℤ × ℤ × ℤ
  | RiskBand.low => (16, 185, 129)
  | RiskBand.moderate => (245, 158, 11)
  | RiskBand.high => (249, 115, 22)
  | RiskBand.critical => (239, 68, 68)

/-- The closed hazard enumeration, from frontend/src/types.ts and
frontend/src/config/constants.ts. -/
inductive HazardType where
  | flood : HazardType
  | drought : HazardType
  | heat_stress : HazardType
  | landslide : HazardType
  | coastal_inundation : HazardType
deriving DecidableEq, Repr, Fintype

/-- The closed scenario enumeration (rcp26 = low/optimistic,
rcp45 = moderate, rcp85 = high/pessimistic), from frontend/src/types.ts. -/
inductive RiskScenario where
  | rcp26 : RiskScenario
  | rcp45 : RiskScenario
  | rcp85 : RiskScenario
deriving DecidableEq, Repr, Fintype

/-- The string value each scenario carries in the TypeScript union type. -/
def scenarioStr : RiskScenario → String
  | RiskScenario.rcp26 => "rcp26"
  | RiskScenario.rcp45 => "rcp45"
  | RiskScenario.rcp85 => "rcp85"

/-- HAZARD_LABELS from frontend/src/config/constants.ts: a total map
over the closed hazard enumeration. -/
def HAZARD_LABELS : HazardType → String
  | HazardType.flood => "Inundação"
  | HazardType.drought => "Seca"
  | HazardType.heat_stress => "Estresse Térmico"
  | HazardType.landslide => "Deslizamento"
  | HazardType.coastal_inundation => "Inundação Costeira"

/-- One entry of the SCENARIOS table in frontend/src/config/constants.ts. -/
structure ScenarioEntry where
  value : RiskScenario
  label : String
  description : String
deriving DecidableEq, Repr

/-- SCENARIOS from frontend/src/config/constants.ts. -/
def SCENARIOS : List ScenarioEntry :=
  [⟨RiskScenario.rcp26, "RCP 2.6 - Baixas Emissões", "Cenário otimista"⟩,
   ⟨RiskScenario.rcp45, "RCP 4.5 - Emissões Moderadas", "Cenário moderado"⟩,
   ⟨RiskScenario.rcp85, "RCP 8.5 - Altas Emissões", "Cenário pessimista"⟩]

/-- A geographic location (WGS84 latitude/longitude). -/
structure Location where
  lat : ℚ
  lng : ℚ
deriving DecidableEq, Repr

/-- The assessment horizon: current conditions or a projection year. -/
inductive Horizon where
  | current : Horizon
  | y2030 : Horizon
  | y2050 : Horizon
deriving DecidableEq, Repr, Fintype

/-- A hazard data source: baseline susceptibility per location and
hazard type (the FetchBaseline interface of the spec). -/
abbrev HazardDataSource := Location → HazardType → ℚ

/-- Clamp a rational into the unit interval. -/
def clamp01 (x : ℚ) : ℚ := max 0 (min 1 x)

/-- Modelled from the spec: the scenario severity multiplier of the
risk calculator in backend/risk/calculator.py (absent from the
sources): 0.6 for the low scenario, 1.0 for moderate, 1.6 for high. -/
def scenarioSeverity : RiskScenario → ℚ
  | RiskScenario.rcp26 => 3/5
  | RiskScenario.rcp45 => 1
  | RiskScenario.rcp85 => 8/5

/-- Modelled from the spec: the per-year acceleration curve of the risk
calculator (absent from the sources). current = clamp01 b,
2030 = clamp01 (b * (1 + 0.15 * sev)), 2050 = clamp01 (b * (1 + 0.45 * sev)). -/
def projectedRisk (b sev : ℚ) : Horizon → ℚ
  | Horizon.current => clamp01 b
  | Horizon.y2030 => clamp01 (b * (1 + 3/20 * sev))
  | Horizon.y2050 => clamp01 (b * (1 + 9/20 * sev))

/-- A per-hazard indicator of the assessment result
(frontend/src/types.ts HazardIndicator). -/
structure HazardIndicator where
  hazard_type : HazardType
  current_risk : ℚ
  projected_2030 : ℚ
  projected_2050 : ℚ
  data_source : String
  confidence : ℚ
deriving DecidableEq, Repr

/-- Modelled from the spec: the per-hazard confidence assigned by the
synthetic fallback source (a fixed band, distinct across hazards so
tests can tell them apart). -/
def hazardConfidence : HazardType → ℚ
  | HazardType.flood => 7/10
  | HazardType.drought => 13/20
  | HazardType.heat_stress => 17/25
  | HazardType.landslide => 3/5
  | HazardType.coastal_inundation => 11/20

/-- The stable order of the five hazards in an assessment. -/
def hazardOrder : List HazardType :=
  [HazardType.flood, HazardType.drought, HazardType.heat_stress,
   HazardType.landslide, HazardType.coastal_inundation]

/-- Modelled from the spec: the fixed, documented weight table for the
overall score (absent from the sources); flood and heat_stress are
weighted highest and the weights sum to 1. -/
def hazardWeight : HazardType → ℚ
  | HazardType.flood => 3/10
  | HazardType.heat_stress => 3/10
  | HazardType.drought => 3/20
  | HazardType.landslide => 3/20
  | HazardType.coastal_inundation => 1/10

/-- Modelled from the spec: construction of one hazard indicator by the
risk calculator from the data-source baseline. -/
def mkIndicator (ds : HazardDataSource) (loc : Location)
    (sc : RiskScenario) (h : HazardType) : HazardIndicator :=
  let b := ds loc h
  let sev := scenarioSeverity sc
  { hazard_type := h
    current_risk := projectedRisk b sev Horizon.current
    projected_2030 := projectedRisk b sev Horizon.y2030
    projected_2050 := projectedRisk b sev Horizon.y2050
    data_source := "synthetic"
    confidence := hazardConfidence h }

/-- The value of an indicator at a horizon. -/
def indicatorAt (ind : HazardIndicator) : Horizon → ℚ
  | Horizon.current => ind.current_risk
  | Horizon.y2030 => ind.projected_2030
  | Horizon.y2050 => ind.projected_2050

/-- Modelled from the spec: the overall score computed by the risk
calculator — the weighted mean of the five per-hazard values at the
requested horizon. -/
def overallScore (ds : HazardDataSource) (loc : Location)
    (sc : RiskScenario) (hor : Horizon) : ℚ :=
  (hazardOrder.map
    (fun h => hazardWeight h * indicatorAt (mkIndicator ds loc sc h) hor)).sum

/-- Modelled from the spec's words (refinement target for C3): the
documented fixed-weight combination — the sum over the five hazards of
weight times per-hazard value at the horizon, written out hazard by
hazard as the spec describes it. -/
def weightedMeanSpec (v : HazardType → ℚ) : ℚ :=
  hazardWeight HazardType.flood * v HazardType.flood +
  hazardWeight HazardType.drought * v HazardType.drought +
  hazardWeight HazardType.heat_stress * v HazardType.heat_stress +
  hazardWeight HazardType.landslide * v HazardType.landslide +
  hazardWeight HazardType.coastal_inundation * v HazardType.coastal_inundation

/-- Modelled from the spec: a canned recommendation keyed by hazard type
and risk band. -/
def recommendationText (h : HazardType) (b : RiskBand) : String :=
  HAZARD_LABELS h ++ ": " ++ bandLabelPt b

/-- The assessment aggregate (frontend/src/types.ts MunicipalRisk /
spec RiskAssessment), restricted to the fields the claims mention. -/
structure RiskAssessment where
  location : Location
  scenario : RiskScenario
  overall_risk_score : ℚ
  hazards : List HazardIndicator
  recommendations : List String
deriving DecidableEq, Repr

/-- Modelled from the spec: AssessRisk of the risk calculator (absent
from the sources): one indicator per hazard type in stable order, the
overall score the weighted mean at the requested horizon, and
recommendations driven by the risk-band rule. -/
def assessRisk (ds : HazardDataSource) (loc : Location)
    (sc : RiskScenario) (hor : Horizon) : RiskAssessment :=
  { location := loc
    scenario := sc
    overall_risk_score := overallScore ds loc sc hor
    hazards := hazardOrder.map (mkIndicator ds loc sc)
    recommendations := hazardOrder.map (fun h =>
      recommendationText h
        (riskBand (indicatorAt (mkIndicator ds loc sc h) hor))) }

/-- Modelled from the spec: the Scenario Comparator (absent from the
sources): one assessment per requested scenario, in the requested
order, each computed independently. -/
def compareScenarios (ds : HazardDataSource) (loc : Location)
    (scenarios : List RiskScenario) (hor : Horizon) : List RiskAssessment :=
  scenarios.map (fun sc => assessRisk ds loc sc hor)

/-- A hex-grid cell index in axial coordinates. The H3 library's string
indexes are modelled by their cell identity on the hexagonal lattice. -/
abbrev H3Index := ℤ × ℤ

/-- Modelled from the spec: resolving a location to its containing cell
at a resolution (the hierarchical hex indexing of backend/risk/h3_service.py,
absent from the sources) — a pure, reproducible function of (location,
resolution). -/
def locToCell (loc : Location) (res : ℕ) : H3Index :=
  (Int.floor (loc.lat * (7 ^ res : ℚ)), Int.floor (loc.lng * (7 ^ res : ℚ)))

/-- Hex distance of an axial offset from the origin:
max(|q|, |r|, |q + r|). -/
def hexDist (o : ℤ × ℤ) : ℕ :=
  max o.1.natAbs (max o.2.natAbs (o.1 + o.2).natAbs)

/-- Modelled from the spec: the axial offsets of all cells within k
hex-steps of a center cell (the disk enumerated by the grid service). -/
def hexDiskOffsets (k : ℕ) : List (ℤ × ℤ) :=
  ((List.range (2 * k + 1)).map (fun i =>
    (List.range (2 * k + 1)).filterMap (fun j =>
      let q : ℤ := (i : ℤ) - (k : ℤ)
      let r : ℤ := (j : ℤ) - (k : ℤ)
      if (q + r).natAbs ≤ k then some (q, r) else none))).flatten

/-- Modelled from the spec: the spatial decay factor of the grid
service, max(0.6, 1 - 0.08 * d) at hex distance d. -/
def decay (d : ℕ) : ℚ := max (3/5) (1 - 2/25 * (d : ℚ))

/-- Modelled from the spec: the deterministic hash-of-cell-index
perturbation of the grid service, bounded to ±5 percent and seeded
only by the cell's own index — never by wall-clock or random state. -/
def perturb (idx : H3Index) : ℚ :=
  (((73 * idx.1 + 179 * idx.2).emod 101 : ℤ) - 50 : ℤ) / 1000

/-- One cell of a built grid. -/
structure GridCell where
  h3_index : H3Index
  risk_score : ℚ
deriving DecidableEq, Repr

/-- A built grid. -/
structure Grid where
  resolution : ℕ
  ringCount : ℕ
  scenario : RiskScenario
  cells : List GridCell
deriving DecidableEq, Repr

/-- Grid-service parameter errors. -/
inductive GridError where
  | invalidResolution : GridError
  | invalidRingCount : GridError
deriving DecidableEq, Repr

/-- Ambient state a non-deterministic implementation could read:
wall-clock time and an unseeded random-state seed. The spec requires
that grid construction never read either. -/
structure WorldState where
  clockMillis : ℕ
  rngSeed : ℕ
deriving DecidableEq, Repr

/-- Modelled from the spec: BuildGrid of backend/risk/h3_service.py
(absent from the sources). Validates resolution in [5,9] and ringCount
in [1,5], anchors the disk at the center cell's overall assessment, and
scores every cell as anchor times decay times the hash-of-index
perturbation. The WorldState argument stands for the wall-clock and
random state available to an implementation; per the spec the result
must not depend on it. -/
def buildGrid (ds : HazardDataSource) (center : Location) (res ringCount : ℕ)
    (sc : RiskScenario) (_env : WorldState) : Except GridError Grid :=
  if res < 5 ∨ 9 < res then Except.error GridError.invalidResolution
  else if ringCount < 1 ∨ 5 < ringCount then Except.error GridError.invalidRingCount
  else
    let c := locToCell center res
    let anchor := overallScore ds center sc Horizon.current
    Except.ok
      { resolution := res
        ringCount := ringCount
        scenario := sc
        cells := (hexDiskOffsets ringCount).map (fun o =>
          let idx : H3Index := (c.1 + o.1, c.2 + o.2)
          { h3_index := idx
            risk_score :=
              clamp01 (anchor * decay (hexDist o) * (1 + perturb idx)) }) }

/-- The heatmap export of a grid: the mapping from cell index to scalar
risk score, as a list of key-value pairs. -/
def heatmapOf (g : Grid) : List (H3Index × ℚ) :=
  g.cells.map (fun cell => (cell.h3_index, cell.risk_score))

/-- One element of a TanStack Query key array: the string and number
values the frontend hooks place in their key arrays. -/
inductive QueryVal where
  | str (s : String) : QueryVal
  | num (n : ℕ) : QueryVal
deriving DecidableEq, Repr

/-- A TanStack Query cache key: a structural array of values, compared
element by element. -/
abbrev QueryKey := List QueryVal

/-- The grid format parameter of the h3-grid endpoint. -/
inductive GridFormat where
  | geojson : GridFormat
  | heatmap : GridFormat
deriving DecidableEq, Repr

/-- The string value of a grid format in the query key. -/
def formatStr : GridFormat → String
  | GridFormat.geojson => "geojson"
  | GridFormat.heatmap => "heatmap"

/-- Embeds the query key of useMunicipalRisk in
frontend/src/lib/api/risk.ts: the array with entries
"municipal-risk", ibgeCode, scenario. -/
def municipalRiskKey (ibgeCode : String) (sc : RiskScenario) : QueryKey :=
  [QueryVal.str "municipal-risk", QueryVal.str ibgeCode,
   QueryVal.str (scenarioStr sc)]

/-- Embeds the query key of useH3Grid in frontend/src/lib/api/risk.ts:
the array with entries "h3-grid", ibgeCode, resolution, rings, format,
scenario. -/
def h3GridKey (ibgeCode : String) (resolution rings : ℕ)
    (format : GridFormat) (sc : RiskScenario) : QueryKey :=
  [QueryVal.str "h3-grid", QueryVal.str ibgeCode, QueryVal.num resolution,
   QueryVal.num rings, QueryVal.str (formatStr format),
   QueryVal.str (scenarioStr sc)]

/-! ### Helper lemmas -/

theorem clamp01_nonneg (x : ℚ) : 0 ≤ clamp01 x := le_max_left 0 _

theorem clamp01_le_one (x : ℚ) : clamp01 x ≤ 1 :=
  max_le (by norm_num) (min_le_left 1 x)

theorem clamp01_mono {x y : ℚ} (h : x ≤ y) : clamp01 x ≤ clamp01 y :=
  max_le_max le_rfl (min_le_min le_rfl h)

theorem clamp01_of_nonpos {x : ℚ} (h : x ≤ 0) : clamp01 x = 0 :=
  max_eq_left ((min_le_right 1 x).trans h)

theorem indicatorAt_mkIndicator (ds : HazardDataSource) (loc : Location)
    (sc : RiskScenario) (h : HazardType) (hor : Horizon) :
    indicatorAt (mkIndicator ds loc sc h) hor =
      projectedRisk (ds loc h) (scenarioSeverity sc) hor := by
  cases hor <;> rfl

theorem projectedRisk_nonneg (b sev : ℚ) (hor : Horizon) :
    0 ≤ projectedRisk b sev hor := by
  cases hor <;> exact clamp01_nonneg _

theorem projectedRisk_le_one (b sev : ℚ) (hor : Horizon) :
    projectedRisk b sev hor ≤ 1 := by
  cases hor <;> exact clamp01_le_one _

theorem projectedRisk_mono_sev (b : ℚ) {s1 s2 : ℚ} (h0 : 0 ≤ s1)
    (h12 : s1 ≤ s2) (hor : Horizon) :
    projectedRisk b s1 hor ≤ projectedRisk b s2 hor := by
  cases hor with
  | current => exact le_rfl
  | y2030 =>
      rcases le_or_lt 0 b with hb | hb
      · exact clamp01_mono (mul_le_mul_of_nonneg_left (by linarith) hb)
      · have e1 : b * (1 + 3/20 * s1) ≤ 0 := by nlinarith
        have e2 : b * (1 + 3/20 * s2) ≤ 0 := by nlinarith
        rw [projectedRisk, projectedRisk, clamp01_of_nonpos e1, clamp01_of_nonpos e2]
  | y2050 =>
      rcases le_or_lt 0 b with hb | hb
      · exact clamp01_mono (mul_le_mul_of_nonneg_left (by linarith) hb)
      · have e1 : b * (1 + 9/20 * s1) ≤ 0 := by nlinarith
        have e2 : b * (1 + 9/20 * s2) ≤ 0 := by nlinarith
        rw [projectedRisk, projectedRisk, clamp01_of_nonpos e1, clamp01_of_nonpos e2]

theorem hazardWeight_nonneg (h : HazardType) : 0 ≤ hazardWeight h := by
  cases h <;> norm_num [hazardWeight]

theorem overallScore_mono_scenario (ds : HazardDataSource) (loc : Location)
    {sc1 sc2 : RiskScenario} (h0 : 0 ≤ scenarioSeverity sc1)
    (h12 : scenarioSeverity sc1 ≤ scenarioSeverity sc2) (hor : Horizon) :
    overallScore ds loc sc1 hor ≤ overallScore ds loc sc2 hor := by
  have t : ∀ h : HazardType,
      hazardWeight h * indicatorAt (mkIndicator ds loc sc1 h) hor ≤
        hazardWeight h * indicatorAt (mkIndicator ds loc sc2 h) hor := by
    intro h
    rw [indicatorAt_mkIndicator, indicatorAt_mkIndicator]
    exact mul_le_mul_of_nonneg_left
      (projectedRisk_mono_sev (ds loc h) h0 h12 hor) (hazardWeight_nonneg h)
  simp only [overallScore, hazardOrder, List.map_cons, List.map_nil,
    List.sum_cons, List.sum_nil]
  have t1 := t HazardType.flood
  have t2 := t HazardType.drought
  have t3 := t HazardType.heat_stress
  have t4 := t HazardType.landslide
  have t5 := t HazardType.coastal_inundation
  linarith

theorem jsRound_int (n : ℤ) : ColorsTs.jsRound (n : ℚ) = n := by
  unfold ColorsTs.jsRound
  rw [add_comm, Int.floor_add_int]
  norm_num

theorem scenarioStr_inj (s t : RiskScenario) : scenarioStr s = scenarioStr t ↔ s = t := by
  cases s <;> cases t <;> decide

theorem formatStr_inj (f g : GridFormat) : formatStr f = formatStr g ↔ f = g := by
  cases f <;> cases g <;> decide

/-! ### Claim theorems -/

/-- C1 counterexample: the claim asserts every consumer-facing risk-band
classifier partitions at 0.3/0.5/0.7, labelling any score below 0.3 as
low; but getRiskLevel in frontend/src/types.ts labels the score 0.27 as
"moderate", since its boundaries are 0.25/0.50/0.75. -/
theorem C1_counterexample :
    (27/100 : ℚ) < 3/10 ∧
    TypesTs.getRiskLevel (27/100) = "moderate" ∧ "moderate" ≠ "low" := by
  refine ⟨by norm_num, ?_, by decide⟩
  unfold TypesTs.getRiskLevel
  rw [if_neg (by norm_num), if_pos (by norm_num)]

/-- C1 (amended): the colors.ts utilities (getRiskLevel, getRiskColor,
getRiskBadgeClass, getRiskColorRGB) and the engine's risk-band rule all
partition scores at exactly the boundaries 0.3, 0.5 and 0.7: each
classifier agrees everywhere with the band function that maps s < 0.3 to
low, 0.3 ≤ s < 0.5 to moderate, 0.5 ≤ s < 0.7 to high and s ≥ 0.7 to
critical. (The types.ts getRiskLevel is excluded: it uses 0.25/0.50/0.75.) -/
theorem C1_colors_partition_at_band_thresholds (s : ℚ) :
    ColorsTs.getRiskLevel (JsNum.fin s) = bandLabelPt (riskBand s) ∧
    ColorsTs.getRiskColor (JsNum.fin s) = bandColorHex (riskBand s) ∧
    ColorsTs.getRiskBadgeClass (JsNum.fin s) = bandBadgeClass (riskBand s) ∧
    ColorsTs.getRiskColorRGB (JsNum.fin s) = bandRGB (riskBand s) := by
  unfold ColorsTs.getRiskLevel ColorsTs.getRiskColor ColorsTs.getRiskBadgeClass
    ColorsTs.getRiskColorRGB riskBand
  simp only [jsLt, decide_eq_true_eq]
  split_ifs <;> simp [bandLabelPt, bandColorHex, bandBadgeClass, bandRGB]

/-- C9: the four colors.ts classifiers are total on every JavaScript
number — including NaN — returning one of exactly four fixed outputs,
and every input that is not strictly below 0.7 (hence every score at or
above 0.7 and the NaN input) falls through to the critical/red output. -/
theorem C9_colors_total_nan_critical (x : JsNum) :
    (ColorsTs.getRiskLevel x = "Baixo" ∨ ColorsTs.getRiskLevel x = "Moderado" ∨
       ColorsTs.getRiskLevel x = "Alto" ∨ ColorsTs.getRiskLevel x = "Crítico") ∧
    (ColorsTs.getRiskColor x = "#10b981" ∨ ColorsTs.getRiskColor x = "#f59e0b" ∨
       ColorsTs.getRiskColor x = "#f97316" ∨ ColorsTs.getRiskColor x = "#ef4444") ∧
    (ColorsTs.getRiskBadgeClass x = "risk-low" ∨ ColorsTs.getRiskBadgeClass x = "risk-moderate" ∨
       ColorsTs.getRiskBadgeClass x = "risk-high" ∨ ColorsTs.getRiskBadgeClass x = "risk-critical") ∧
    (ColorsTs.getRiskColorRGB x = (16, 185, 129) ∨ ColorsTs.getRiskColorRGB x = (245, 158, 11) ∨
       ColorsTs.getRiskColorRGB x = (249, 115, 22) ∨ ColorsTs.getRiskColorRGB x = (239, 68, 68)) ∧
    (jsLt x (JsNum.fin (7/10)) = false →
      ColorsTs.getRiskLevel x = "Crítico" ∧ ColorsTs.getRiskColor x = "#ef4444" ∧
      ColorsTs.getRiskBadgeClass x = "risk-critical" ∧
      ColorsTs.getRiskColorRGB x = (239, 68, 68)) := by
  unfold ColorsTs.getRiskLevel ColorsTs.getRiskColor ColorsTs.getRiskBadgeClass
    ColorsTs.getRiskColorRGB
  cases x with
  | nan => simp [jsLt]
  | fin q =>
      simp only [jsLt, decide_eq_true_eq, decide_eq_false_iff_not]
      split_ifs with h1 h2 h3 <;> simp_all <;> linarith

/-- C9 witness: the NaN input and the score 0.8 both land on the
critical/red outputs. -/
theorem C9_witness :
    (ColorsTs.getRiskLevel JsNum.nan = "Crítico" ∧
     ColorsTs.getRiskColor JsNum.nan = "#ef4444" ∧
     ColorsTs.getRiskBadgeClass JsNum.nan = "risk-critical" ∧
     ColorsTs.getRiskColorRGB JsNum.nan = (239, 68, 68)) ∧
    ColorsTs.getRiskLevel (JsNum.fin (4/5)) = "Crítico" :=
  ⟨(C9_colors_total_nan_critical JsNum.nan).2.2.2.2 rfl,
   ((C9_colors_total_nan_critical (JsNum.fin (4/5))).2.2.2.2 (by
      simp only [jsLt, decide_eq_false_iff_not]
      norm_num)).1⟩

/-- C10: interpolateColor from colors.ts satisfies endpoint identity on
integer RGB triples: factor 0 returns the first color and factor 1
returns the second. -/
theorem C10_interpolateColor_endpoints (color1 color2 : ℤ × ℤ × ℤ) :
    ColorsTs.interpolateColor color1 color2 0 = color1 ∧
    ColorsTs.interpolateColor color1 color2 1 = color2 := by
  obtain ⟨a1, a2, a3⟩ := color1
  obtain ⟨b1, b2, b3⟩ := color2
  have h0 : ∀ a b : ℤ, ColorsTs.jsRound ((a : ℚ) + ((b : ℚ) - (a : ℚ)) * 0) = a := by
    intro a b
    rw [mul_zero, add_zero, jsRound_int]
  have h1 : ∀ a b : ℤ, ColorsTs.jsRound ((a : ℚ) + ((b : ℚ) - (a : ℚ)) * 1) = b := by
    intro a b
    have e : (a : ℚ) + ((b : ℚ) - (a : ℚ)) * 1 = (b : ℚ) := by ring
    rw [e, jsRound_int]
  constructor
  · show (ColorsTs.jsRound _, ColorsTs.jsRound _, ColorsTs.jsRound _) = (a1, a2, a3)
    rw [h0 a1 b1, h0 a2 b2, h0 a3 b3]
  · show (ColorsTs.jsRound _, ColorsTs.jsRound _, ColorsTs.jsRound _) = (b1, b2, b3)
    rw [h1 a1 b1, h1 a2 b2, h1 a3 b3]

/-- C2: for every location, scenario and hazard type, if the baseline
susceptibility is strictly positive and the scenario severity multiplier
is at least 1 (the moderate and high scenarios), then the corresponding
HazardIndicator in the AssessRisk result satisfies
current_risk ≤ projected_2030 ≤ projected_2050. -/
theorem C2_assessRisk_projection_monotone (ds : HazardDataSource)
    (loc : Location) (sc : RiskScenario) (hor : Horizon) (h : HazardType)
    (hb : 0 < ds loc h) (hs : 1 ≤ scenarioSeverity sc) :
    mkIndicator ds loc sc h ∈ (assessRisk ds loc sc hor).hazards ∧
    (mkIndicator ds loc sc h).current_risk ≤
      (mkIndicator ds loc sc h).projected_2030 ∧
    (mkIndicator ds loc sc h).projected_2030 ≤
      (mkIndicator ds loc sc h).projected_2050 := by
  refine ⟨?_, ?_, ?_⟩
  · have hmem : h ∈ hazardOrder := by cases h <;> decide
    exact List.mem_map_of_mem (mkIndicator ds loc sc) hmem
  · show clamp01 (ds loc h) ≤ clamp01 (ds loc h * (1 + 3/20 * scenarioSeverity sc))
    exact clamp01_mono (le_mul_of_one_le_right hb.le (by linarith))
  · show clamp01 (ds loc h * (1 + 3/20 * scenarioSeverity sc)) ≤
      clamp01 (ds loc h * (1 + 9/20 * scenarioSeverity sc))
    exact clamp01_mono (mul_le_mul_of_nonneg_left (by linarith) hb.le)

/-- C2 witness: a constant data source with baseline one half at the
moderate scenario, for flood at a fixed location. -/
theorem C2_witness :
    (0 : ℚ) < (fun (_ : Location) (_ : HazardType) => (1/2 : ℚ))
        ⟨-2355/100, -4663/100⟩ HazardType.flood ∧
    1 ≤ scenarioSeverity RiskScenario.rcp45 ∧
    (mkIndicator (fun _ _ => 1/2) ⟨-2355/100, -4663/100⟩ RiskScenario.rcp45
        HazardType.flood).current_risk ≤
      (mkIndicator (fun _ _ => 1/2) ⟨-2355/100, -4663/100⟩ RiskScenario.rcp45
        HazardType.flood).projected_2030 := by
  refine ⟨by norm_num, by norm_num [scenarioSeverity], ?_⟩
  exact (C2_assessRisk_projection_monotone (fun _ _ => 1/2)
    ⟨-2355/100, -4663/100⟩ RiskScenario.rcp45 Horizon.current HazardType.flood
    (by norm_num) (by norm_num [scenarioSeverity])).2.1

/-- C3: for every request, the overall risk score lies in [0,1], equals
the fixed-weight combination of the five per-hazard values at the
requested horizon, the weight table sums to 1, and flood and heat_stress
carry the highest weights. -/
theorem C3_overall_weighted_mean (ds : HazardDataSource) (loc : Location)
    (sc : RiskScenario) (hor : Horizon) :
    0 ≤ (assessRisk ds loc sc hor).overall_risk_score ∧
    (assessRisk ds loc sc hor).overall_risk_score ≤ 1 ∧
    (assessRisk ds loc sc hor).overall_risk_score =
      weightedMeanSpec (fun h => indicatorAt (mkIndicator ds loc sc h) hor) ∧
    (hazardOrder.map hazardWeight).sum = 1 ∧
    (∀ h : HazardType, hazardWeight h ≤ hazardWeight HazardType.flood) ∧
    (∀ h : HazardType, hazardWeight h ≤ hazardWeight HazardType.heat_stress) := by
  have hv : ∀ h : HazardType,
      0 ≤ indicatorAt (mkIndicator ds loc sc h) hor ∧
        indicatorAt (mkIndicator ds loc sc h) hor ≤ 1 := by
    intro h
    rw [indicatorAt_mkIndicator]
    exact ⟨projectedRisk_nonneg _ _ _, projectedRisk_le_one _ _ _⟩
  have h1 := hv HazardType.flood
  have h2 := hv HazardType.drought
  have h3 := hv HazardType.heat_stress
  have h4 := hv HazardType.landslide
  have h5 := hv HazardType.coastal_inundation
  refine ⟨?_, ?_, ?_, ?_, ?_, ?_⟩
  · show 0 ≤ overallScore ds loc sc hor
    simp only [overallScore, hazardOrder, List.map_cons, List.map_nil,
      List.sum_cons, List.sum_nil, hazardWeight]
    linarith [h1.1, h2.1, h3.1, h4.1, h5.1]
  · show overallScore ds loc sc hor ≤ 1
    simp only [overallScore, hazardOrder, List.map_cons, List.map_nil,
      List.sum_cons, List.sum_nil, hazardWeight]
    linarith [h1.1, h2.1, h3.1, h4.1, h5.1, h1.2, h2.2, h3.2, h4.2, h5.2]
  · show overallScore ds loc sc hor = weightedMeanSpec _
    simp only [overallScore, hazardOrder, List.map_cons, List.map_nil,
      List.sum_cons, List.sum_nil, weightedMeanSpec]
    ring
  · norm_num [hazardOrder, hazardWeight]
  · intro h; cases h <;> norm_num [hazardWeight]
  · intro h; cases h <;> norm_num [hazardWeight]

/-- C4: two BuildGrid calls with identical parameters produce identical
results — and in particular identical heatmap output — regardless of the
ambient wall-clock or random state, because the per-cell perturbation is
seeded only by each cell's own index. -/
theorem C4_buildGrid_deterministic (ds : HazardDataSource) (center : Location)
    (res ringCount : ℕ) (sc : RiskScenario) (env1 env2 : WorldState) :
    buildGrid ds center res ringCount sc env1 =
      buildGrid ds center res ringCount sc env2 ∧
    (buildGrid ds center res ringCount sc env1).map heatmapOf =
      (buildGrid ds center res ringCount sc env2).map heatmapOf :=
  ⟨rfl, rfl⟩

theorem hexDiskOffsets_length {k : ℕ} (h1 : 1 ≤ k) (h2 : k ≤ 5) :
    (hexDiskOffsets k).length = 1 + 3 * k * (k + 1) := by
  interval_cases k <;> rfl

theorem hexDiskOffsets_nodup {k : ℕ} (h1 : 1 ≤ k) (h2 : k ≤ 5) :
    (hexDiskOffsets k).Nodup := by
  interval_cases k <;> decide

/-- C5: for every valid center, scenario, resolution in [5,9] and ring
count in [1,5], BuildGrid succeeds and returns a grid with exactly
1 + 3 * ringCount * (ringCount + 1) cells whose h3 index keys are
pairwise distinct. -/
theorem C5_grid_cell_count (ds : HazardDataSource) (center : Location)
    (res ringCount : ℕ) (sc : RiskScenario) (env : WorldState)
    (hres1 : 5 ≤ res) (hres2 : res ≤ 9)
    (hr1 : 1 ≤ ringCount) (hr2 : ringCount ≤ 5) :
    ∃ g : Grid, buildGrid ds center res ringCount sc env = Except.ok g ∧
      g.cells.length = 1 + 3 * ringCount * (ringCount + 1) ∧
      (g.cells.map GridCell.h3_index).Nodup := by
  rw [buildGrid, if_neg (by omega), if_neg (by omega)]
  refine ⟨_, rfl, ?_, ?_⟩
  · rw [List.length_map, hexDiskOffsets_length hr1 hr2]
  · rw [List.map_map]
    refine List.Nodup.map ?_ (hexDiskOffsets_nodup hr1 hr2)
    intro a b hab
    have hab1 : (locToCell center res).1 + a.1 = (locToCell center res).1 + b.1 ∧
        (locToCell center res).2 + a.2 = (locToCell center res).2 + b.2 := by
      simpa [Prod.ext_iff] using hab
    have := hab1.1
    have := hab1.2
    exact Prod.ext (by omega) (by omega)

/-- C5 witness: resolution 7 with ring count 2 yields exactly 19 cells
with pairwise-distinct keys. -/
theorem C5_witness :
    (5 ≤ 7 ∧ 7 ≤ 9 ∧ 1 ≤ 2 ∧ 2 ≤ 5) ∧
    ∃ g : Grid, buildGrid (fun _ _ => 1/2) ⟨0, 0⟩ 7 2 RiskScenario.rcp45
        ⟨0, 0⟩ = Except.ok g ∧
      g.cells.length = 19 ∧ (g.cells.map GridCell.h3_index).Nodup := by
  refine ⟨by norm_num, ?_⟩
  obtain ⟨g, hg, hlen, hnd⟩ := C5_grid_cell_count (fun _ _ => 1/2) ⟨0, 0⟩ 7 2
    RiskScenario.rcp45 ⟨0, 0⟩ (by norm_num) (by norm_num) (by norm_num) (by norm_num)
  exact ⟨g, hg, by omega, hnd⟩

/-- C6: the frontend cache keys are injective in all result-affecting
parameters: two useMunicipalRisk keys are equal exactly when their
(ibgeCode, scenario) pairs are equal, two useH3Grid keys are equal
exactly when their (ibgeCode, resolution, rings, format, scenario)
tuples are equal, and a municipal-risk key never collides with an
h3-grid key. -/
theorem C6_query_keys_injective :
    (∀ a b : String, ∀ s t : RiskScenario,
      municipalRiskKey a s = municipalRiskKey b t ↔ a = b ∧ s = t) ∧
    (∀ a b : String, ∀ r1 r2 g1 g2 : ℕ, ∀ f1 f2 : GridFormat,
      ∀ s t : RiskScenario,
      h3GridKey a r1 g1 f1 s = h3GridKey b r2 g2 f2 t ↔
        a = b ∧ r1 = r2 ∧ g1 = g2 ∧ f1 = f2 ∧ s = t) ∧
    (∀ a b : String, ∀ r g : ℕ, ∀ f : GridFormat, ∀ s t : RiskScenario,
      municipalRiskKey a s ≠ h3GridKey b r g f t) := by
  refine ⟨?_, ?_, ?_⟩
  · intro a b s t
    simp [municipalRiskKey, scenarioStr_inj]
  · intro a b r1 r2 g1 g2 f1 f2 s t
    simp [h3GridKey, scenarioStr_inj, formatStr_inj]
  · intro a b r g f s t h
    simp [municipalRiskKey, h3GridKey] at h

/-- C6 witness: identical municipal-risk requests share a key, and a
municipal-risk key differs from an h3-grid key for the same
municipality and scenario. -/
theorem C6_witness :
    municipalRiskKey "3550308" RiskScenario.rcp45 =
      municipalRiskKey "3550308" RiskScenario.rcp45 ∧
    municipalRiskKey "3550308" RiskScenario.rcp45 ≠
      h3GridKey "3550308" 7 2 GridFormat.heatmap RiskScenario.rcp45 :=
  ⟨rfl, C6_query_keys_injective.2.2 "3550308" "3550308" 7 2 GridFormat.heatmap
    RiskScenario.rcp45 RiskScenario.rcp45⟩

/-- C7: Compare returns exactly one assessment per requested scenario in
the requested order, and for the scenario list [rcp26, rcp45, rcp85] the
overall risk scores are non-decreasing from the low scenario to the high
scenario, at every fixed location and horizon. -/
theorem C7_compare_ordered_monotone (ds : HazardDataSource) (loc : Location)
    (hor : Horizon) :
    (∀ scenarios : List RiskScenario,
      (compareScenarios ds loc scenarios hor).map RiskAssessment.scenario =
        scenarios) ∧
    (compareScenarios ds loc
        [RiskScenario.rcp26, RiskScenario.rcp45, RiskScenario.rcp85] hor).map
        RiskAssessment.overall_risk_score =
      [overallScore ds loc RiskScenario.rcp26 hor,
       overallScore ds loc RiskScenario.rcp45 hor,
       overallScore ds loc RiskScenario.rcp85 hor] ∧
    overallScore ds loc RiskScenario.rcp26 hor ≤
      overallScore ds loc RiskScenario.rcp45 hor ∧
    overallScore ds loc RiskScenario.rcp45 hor ≤
      overallScore ds loc RiskScenario.rcp85 hor := by
  refine ⟨?_, rfl, ?_, ?_⟩
  · intro scenarios
    induction scenarios with
    | nil => rfl
    | cons sc rest ih =>
        simp only [compareScenarios, List.map_cons] at ih ⊢
        rw [ih]
        rfl
  · exact overallScore_mono_scenario ds loc
      (by norm_num [scenarioSeverity]) (by norm_num [scenarioSeverity]) hor
  · exact overallScore_mono_scenario ds loc
      (by norm_num [scenarioSeverity]) (by norm_num [scenarioSeverity]) hor

/-- C8: HazardType is a closed enumeration of exactly five values and
RiskScenario of exactly three; the assessment operation produces one
indicator per hazard in the stable order covering all five, and the
SCENARIOS table covers exactly the three scenarios. -/
theorem C8_closed_enumerations :
    Fintype.card HazardType = 5 ∧ Fintype.card RiskScenario = 3 ∧
    hazardOrder.Nodup ∧ (∀ h : HazardType, h ∈ hazardOrder) ∧
    SCENARIOS.map ScenarioEntry.value =
      [RiskScenario.rcp26, RiskScenario.rcp45, RiskScenario.rcp85] ∧
    (∀ (ds : HazardDataSource) (loc : Location) (sc : RiskScenario)
      (hor : Horizon),
      (assessRisk ds loc sc hor).hazards.map HazardIndicator.hazard_type =
        hazardOrder) := by
  refine ⟨by decide, by decide, by decide, ?_, rfl, ?_⟩
  · intro h; cases h <;> decide
  · intro ds loc sc hor; rfl

end Purpura
